import Mathlib

/-!
Verification of the credential lifecycle and request dispatch layer of the
apiport-mcp-server repository (`src/apiport_mcp_server/api_client.py`).

The Python code is shallowly embedded: JSON values are a small inductive
type, time instants are integers counted in seconds, and the network is an
explicit oracle (`NetResult`) passed to each operation.  The three mutable
attributes of `ApiPortClient` (`access_token`, `refresh_token`,
`token_expires_at`) become a `ClientState` record, and each method returns
its result, the new state, and the list of HTTP requests it issued.
-/

namespace ApiPort

/-- JSON values as produced by `response.json()` in the Python client.
Numbers are modelled as integers (no claim involves fractional values). -/
inductive Json where
  | null : Json
  | bool (b : Bool) : Json
  | num (n : Int) : Json
  | str (s : String) : Json
  | arr (xs : List Json) : Json
  | obj (fields : List (String × Json)) : Json
deriving Repr, BEq

/-- First-match association lookup, mirroring Python `dict` access (keys of a
parsed JSON object are unique, so first match is the match). -/
def lookupField : List (String × Json) → String → Option Json
  | [], _ => none
  | (k, v) :: rest, key => if k = key then some v else lookupField rest key

/-- Key lookup on a JSON value: `some v` when the value is an object with the
key, `none` otherwise.  Models Python `data[k]` / `data.get(k)` on the parsed
object bodies handled by the client. -/
def Json.find? : Json → String → Option Json
  | .obj fields, key => lookupField fields key
  | _, _ => none

/-- Python truthiness of a JSON value (`if self.access_token:` etc.):
`None`, `False`, `0`, `""`, `[]`, `{}` are falsy, everything else truthy. -/
def jsonTruthy : Json → Bool
  | .null => false
  | .bool b => b
  | .num n => n != 0
  | .str s => s != ""
  | .arr xs => !xs.isEmpty
  | .obj fields => !fields.isEmpty

/-- Python `str()` of a JSON value, as used by the f-string
`f"Bearer \x7btoken\x7d"`.  On strings (the only case the remote contract
produces for tokens) it is the identity.  Containers are rendered
JSON-style; Python would quote inner strings with single quotes, a
difference invisible to every stated property. -/
def pyStr : Json → String
  | .null => "None"
  | .bool true => "True"
  | .bool false => "False"
  | .num n => toString n
  | .str s => s
  | .arr _ => "[...]"
  | .obj _ => "\x7b...\x7d"

/-- The immutable identity configured in `ApiPortClient.__init__`. -/
structure ClientConfig where
  api_url : String
  email : String
  password : String
  verify_ssl : Bool
deriving Repr, DecidableEq

/-- ASCII lowercase of one character: the effect of Python `str.lower` on
the ASCII configuration values involved here. -/
def asciiLower (c : Char) : Char :=
  if 65 ≤ c.toNat ∧ c.toNat ≤ 90 then Char.ofNat (c.toNat + 32) else c

/-- Python `s.lower()` applied to a configuration string (ASCII). -/
def pyLower (s : String) : String := String.mk (s.data.map asciiLower)

/-- `self.verify_ssl = verify_ssl if verify_ssl else
os.getenv("VERIFY_SSL", "true").lower() == "true"` — the stored flag as a
function of the constructor argument and the optional environment value. -/
def init_verify_ssl (arg : Bool) (envVerifySsl : Option String) : Bool :=
  if arg then arg else pyLower (envVerifySsl.getD "true") = "true"

/-- The mutable credential triple of `ApiPortClient`: `access_token`,
`refresh_token`, `token_expires_at`.  Tokens hold whatever JSON value the
login response carried; the expiry instant is in seconds. -/
structure ClientState where
  access_token : Option Json
  refresh_token : Option Json
  token_expires_at : Option Int
deriving Repr, BEq

/-- State right after `__init__`: all three attributes are `None`. -/
def initClientState : ClientState := ⟨none, none, none⟩

/-- An HTTP response delivered by the network: status code and parsed body. -/
structure HttpResponse where
  status : Nat
  body : Json
deriving Repr, BEq

/-- Outcome of one network call: either a response arrived, or the call
itself failed (DNS, connection refused, timeout — `httpx.TransportError`). -/
inductive NetResult where
  | response (r : HttpResponse) : NetResult
  | transportError : NetResult
deriving Repr, BEq

/-- The exceptions the client can raise, as they escape the two methods:
`httpStatusError` is `httpx.HTTPStatusError` from `raise_for_status()`
(carrying the response status and body), `keyError` is the `KeyError` from
`data["access"]`, `transportError` is `httpx.TransportError`. -/
inductive ApiError where
  | httpStatusError (status : Nat) (body : Json) : ApiError
  | keyError (key : String) : ApiError
  | transportError : ApiError
deriving Repr, BEq

/-- `httpx.Response.is_success`: `raise_for_status()` raises exactly when the
status is outside 200–299. -/
def is2xx (status : Nat) : Bool := 200 ≤ status && status < 300

/-- One outgoing HTTP request as the client builds it. -/
structure HttpRequest where
  method : String
  url : String
  authHeader : Option String
  jsonBody : Option Json
  queryParams : Option Json
deriving Repr, BEq

/-- The login request of `_get_token`:
`client.post(f"...{self.api_url}/api/accounts/token/", json=...)`. -/
def loginRequest (cfg : ClientConfig) : HttpRequest :=
  { method := "POST"
  , url := cfg.api_url ++ "/api/accounts/token/"
  , authHeader := none
  , jsonBody := some (Json.obj [("email", .str cfg.email), ("password", .str cfg.password)])
  , queryParams := none }

/-- The reuse check at the top of `_get_token`:
`if self.access_token and self.token_expires_at:` followed by
`if datetime.now() < self.token_expires_at - timedelta(minutes=5): return
self.access_token`.  Returns the held token exactly when both attributes are
truthy and `now` is strictly before expiry minus 300 seconds. -/
def validToken? (s : ClientState) (now : Int) : Option Json :=
  match s.access_token, s.token_expires_at with
  | some tok, some exp =>
      if jsonTruthy tok ∧ now < exp - 300 then some tok else none
  | _, _ => none

/-- Processing of the login response inside `_get_token`, after the `await`:
`raise_for_status()`, then `data["access"]`, `data.get("refresh")`, and
`token_expires_at = now + 1 hour`.  Returns the raised error or the new
token, together with the possibly updated state. -/
def processLoginResponse (s : ClientState) (now : Int) (net : NetResult) :
    Except ApiError Json × ClientState :=
  match net with
  | .transportError => (.error .transportError, s)
  | .response r =>
      if is2xx r.status then
        match r.body.find? "access" with
        | some tok =>
            (.ok tok,
             { access_token := some tok
             , refresh_token := r.body.find? "refresh"
             , token_expires_at := some (now + 3600) })
        | none => (.error (.keyError "access"), s)
      else (.error (.httpStatusError r.status r.body), s)

/-- Result of one `_get_token` call: the returned token or raised error, the
client state afterwards, and the HTTP requests issued during the call. -/
structure TokenResult where
  result : Except ApiError Json
  state : ClientState
  requests : List HttpRequest
deriving Repr

/-- `ApiPortClient._get_token`: reuse the held token when still valid (no
network traffic, state untouched), otherwise POST the identity to the token
endpoint and process the response. -/
def get_token (cfg : ClientConfig) (s : ClientState) (now : Int)
    (net : NetResult) : TokenResult :=
  match validToken? s now with
  | some tok => ⟨.ok tok, s, []⟩
  | none =>
      let pr := processLoginResponse s now net
      ⟨pr.1, pr.2, [loginRequest cfg]⟩

/-- Result of one `_request` call: parsed JSON body or raised error, the
client state afterwards, and all HTTP requests issued (login first when one
happened, then the domain call). -/
structure RequestResult where
  result : Except ApiError Json
  state : ClientState
  requests : List HttpRequest
deriving Repr

/-- The domain request `_request` issues:
`client.request(method, f"...{self.api_url}/api/tracker/{endpoint}",
headers={"Authorization": f"Bearer {token}"}, json=json, params=params)`. -/
def domainRequest (cfg : ClientConfig) (tok : Json) (method endpoint : String)
    (body params : Option Json) : HttpRequest :=
  { method := method
  , url := cfg.api_url ++ "/api/tracker/" ++ endpoint
  , authHeader := some ("Bearer " ++ pyStr tok)
  , jsonBody := body
  , queryParams := params }

/-- `ApiPortClient._request`: obtain a token via `_get_token` (an exception
there propagates unchanged, and no domain call is made), then issue the
domain request once; `raise_for_status()` turns a non-2xx status into an
error, a transport failure propagates, and a 2xx response yields its parsed
body.  Nothing is retried. -/
def request (cfg : ClientConfig) (s : ClientState) (now : Int)
    (loginNet : NetResult) (method endpoint : String)
    (body params : Option Json) (domainNet : NetResult) : RequestResult :=
  let t := get_token cfg s now loginNet
  match t.result with
  | .error e => ⟨.error e, t.state, t.requests⟩
  | .ok tok =>
      let req := domainRequest cfg tok method endpoint body params
      match domainNet with
      | .transportError => ⟨.error .transportError, t.state, t.requests ++ [req]⟩
      | .response r =>
          if is2xx r.status then ⟨.ok r.body, t.state, t.requests ++ [req]⟩
          else ⟨.error (.httpStatusError r.status r.body), t.state, t.requests ++ [req]⟩

/-! ### Domain methods

Each public method is `data = await self._request(method, endpoint, ...)`
followed by `return data.get(key, default)`.  `extractField` models that
final `dict.get` (on the object bodies these methods handle; an error from
`_request` propagates unchanged). -/

/-- `data.get(key, default)` applied to the result of `_request`: an error
propagates, a success yields the sub-field or the default. -/
def extractField (r : RequestResult) (key : String) (dflt : Json) :
    Except ApiError Json :=
  match r.result with
  | .error e => .error e
  | .ok data => .ok ((data.find? key).getD dflt)

/-- `list_projects`: `GET projects/`, returning `data.get("projects", [])`. -/
def list_projects (cfg : ClientConfig) (s : ClientState) (now : Int)
    (loginNet domainNet : NetResult) : Except ApiError Json × ClientState :=
  let r := request cfg s now loginNet "GET" "projects/" none none domainNet
  (extractField r "projects" (.arr []), r.state)

/-- `get_project`: `GET projects/{id}/`, returning `data.get("project", {})`. -/
def get_project (cfg : ClientConfig) (s : ClientState) (now : Int)
    (loginNet : NetResult) (project_id : Int) (domainNet : NetResult) :
    Except ApiError Json × ClientState :=
  let r := request cfg s now loginNet "GET"
    ("projects/" ++ toString project_id ++ "/") none none domainNet
  (extractField r "project" (.obj []), r.state)

/-- `list_sprints`: `GET projects/{id}/sprints/`, returning
`data.get("sprints", [])`. -/
def list_sprints (cfg : ClientConfig) (s : ClientState) (now : Int)
    (loginNet : NetResult) (project_id : Int) (domainNet : NetResult) :
    Except ApiError Json × ClientState :=
  let r := request cfg s now loginNet "GET"
    ("projects/" ++ toString project_id ++ "/sprints/") none none domainNet
  (extractField r "sprints" (.arr []), r.state)

/-- `get_sprint`: `GET sprints/{id}/`, returning `data.get("sprint", {})`. -/
def get_sprint (cfg : ClientConfig) (s : ClientState) (now : Int)
    (loginNet : NetResult) (sprint_id : Int) (domainNet : NetResult) :
    Except ApiError Json × ClientState :=
  let r := request cfg s now loginNet "GET"
    ("sprints/" ++ toString sprint_id ++ "/") none none domainNet
  (extractField r "sprint" (.obj []), r.state)

/-- A conditionally present string payload field (`if goal: payload["goal"] =
goal` — Python truthiness drops `None` and `""`). -/
def optStrField (key : String) : Option String → List (String × Json)
  | none => []
  | some v => if v = "" then [] else [(key, .str v)]

/-- A conditionally present integer payload field (`if velocity_target:` —
Python truthiness also drops `0`). -/
def optIntField (key : String) : Option Int → List (String × Json)
  | none => []
  | some v => if v = 0 then [] else [(key, .num v)]

/-- The payload `create_sprint` builds before posting. -/
def create_sprint_payload (name : String)
    (goal start_date end_date : Option String)
    (velocity_target : Option Int) : Json :=
  Json.obj
    ([("name", .str name), ("status", .str "planned")]
      ++ optStrField "goal" goal
      ++ optStrField "start_date" start_date
      ++ optStrField "end_date" end_date
      ++ optIntField "velocity_target" velocity_target)

/-- `create_sprint`: `POST projects/{id}/sprints/` with the built payload,
returning `data.get("sprint", {})`. -/
def create_sprint (cfg : ClientConfig) (s : ClientState) (now : Int)
    (loginNet : NetResult) (project_id : Int) (name : String)
    (goal start_date end_date : Option String) (velocity_target : Option Int)
    (domainNet : NetResult) : Except ApiError Json × ClientState :=
  let payload := create_sprint_payload name goal start_date end_date velocity_target
  let r := request cfg s now loginNet "POST"
    ("projects/" ++ toString project_id ++ "/sprints/") (some payload) none domainNet
  (extractField r "sprint" (.obj []), r.state)

/-- `list_work_items`: `GET projects/{id}/work-items/`, returning
`data.get("work_items", [])`. -/
def list_work_items (cfg : ClientConfig) (s : ClientState) (now : Int)
    (loginNet : NetResult) (project_id : Int) (domainNet : NetResult) :
    Except ApiError Json × ClientState :=
  let r := request cfg s now loginNet "GET"
    ("projects/" ++ toString project_id ++ "/work-items/") none none domainNet
  (extractField r "work_items" (.arr []), r.state)

/-- `get_work_item`: `GET work-items/{id}/`, returning
`data.get("work_item", {})`. -/
def get_work_item (cfg : ClientConfig) (s : ClientState) (now : Int)
    (loginNet : NetResult) (work_item_id : Int) (domainNet : NetResult) :
    Except ApiError Json × ClientState :=
  let r := request cfg s now loginNet "GET"
    ("work-items/" ++ toString work_item_id ++ "/") none none domainNet
  (extractField r "work_item" (.obj []), r.state)

/-- `get_backlog`: `GET projects/{id}/backlog/`, returning
`data.get("work_items", [])`. -/
def get_backlog (cfg : ClientConfig) (s : ClientState) (now : Int)
    (loginNet : NetResult) (project_id : Int) (domainNet : NetResult) :
    Except ApiError Json × ClientState :=
  let r := request cfg s now loginNet "GET"
    ("projects/" ++ toString project_id ++ "/backlog/") none none domainNet
  (extractField r "work_items" (.arr []), r.state)

/-! ### Concurrent acquisitions

`_get_token` under the cooperative scheduler has one suspension point: the
awaited login POST.  Everything before it (the validity check) and
everything after it (response processing and the three attribute writes)
runs without interleaving.  `interleavedAcquire` executes N concurrent
`_get_token` calls under the schedule in which every task evaluates the
validity check before any login response is processed: the check mutates
nothing, so every task observes the initial state; each task that found no
valid token issues its own login, and the responses are then processed in
task order against the evolving shared state. -/

/-- Process a list of login responses sequentially against the shared
credential state, collecting each task's outcome. -/
def processAll (now : Int) :
    ClientState → List NetResult → List (Except ApiError Json) × ClientState
  | s, [] => ([], s)
  | s, net :: rest =>
      let pr := processLoginResponse s now net
      let tail := processAll now pr.2 rest
      (pr.1 :: tail.1, tail.2)

/-- N concurrent `_get_token` calls (one entry of `nets` per task) under the
all-checks-first interleaving: if the initial state holds a valid token every
task reuses it with no network traffic; otherwise every task performs its
own login.  Returns each task's outcome, the final state, and all issued
login requests. -/
def interleavedAcquire (cfg : ClientConfig) (s0 : ClientState) (now : Int)
    (nets : List NetResult) :
    List (Except ApiError Json) × ClientState × List HttpRequest :=
  match validToken? s0 now with
  | some tok => (nets.map (fun _ => .ok tok), s0, [])
  | none =>
      let pa := processAll now s0 nets
      (pa.1, pa.2, nets.map (fun _ => loginRequest cfg))

/-- Truthiness of the held access attribute, the `self.access_token` part of
the reuse guard: false when the attribute is `None` or holds a falsy value
(such as the empty string). -/
def tokenHeld (s : ClientState) : Bool :=
  match s.access_token with
  | some t => jsonTruthy t
  | none => false

/-! ### Concrete fixtures used to instantiate theorems -/

/-- A concrete configuration. -/
def exCfg : ClientConfig := ⟨"https://api.example.test", "a@b.com", "secret", true⟩

/-- A state holding token `T` with expiry at instant 1000. -/
def exHeldState : ClientState := ⟨some (.str "T"), none, some 1000⟩

/-- A successful login response carrying access value `T1`. -/
def exLogin1 : NetResult := .response ⟨200, .obj [("access", .str "T1")]⟩

/-- A successful login response carrying access value `T2`. -/
def exLogin2 : NetResult := .response ⟨200, .obj [("access", .str "T2")]⟩

/-- A rejected login / failed domain call: status 401, empty object body. -/
def exReject : NetResult := .response ⟨401, .obj []⟩

/-- A 2xx response whose object body lacks an `access` field. -/
def exNoAccess : NetResult := .response ⟨200, .obj [("detail", .str "x")]⟩

/-! ### Reachable states

`Reachable cfg s m` holds when the credential state `s` can arise from the
freshly constructed client by any sequence of `_get_token` and `_request`
calls; the ghost component `m` records the instant of the last successful
login (the minting instant of the held token), `none` before the first. -/

/-- Ghost minting instant after one `_get_token` call: updated to `now`
exactly when the call performed a login that succeeded. -/
def mintAfter (cfg : ClientConfig) (s : ClientState) (now : Int)
    (net : NetResult) (m : Option Int) : Option Int :=
  let t := get_token cfg s now net
  if t.requests.isEmpty then m
  else match t.result with
    | .ok _ => some now
    | .error _ => m

/-- States reachable from the freshly constructed client, with the ghost
minting instant. -/
inductive Reachable (cfg : ClientConfig) : ClientState → Option Int → Prop where
  | init : Reachable cfg initClientState none
  | stepToken (s : ClientState) (m : Option Int) (now : Int) (net : NetResult) :
      Reachable cfg s m →
      Reachable cfg (get_token cfg s now net).state (mintAfter cfg s now net m)
  | stepRequest (s : ClientState) (m : Option Int) (now : Int)
      (loginNet : NetResult) (method endpoint : String)
      (body params : Option Json) (domainNet : NetResult) :
      Reachable cfg s m →
      Reachable cfg
        (request cfg s now loginNet method endpoint body params domainNet).state
        (mintAfter cfg s now loginNet m)

/-! ## Helper lemmas -/

/-- The reuse guard rejects exactly when no truthy token is held or the
stored expiry is at or before `now + 300`. -/
theorem validToken?_eq_none (s : ClientState) (now : Int)
    (h : tokenHeld s = false ∨
         ∃ exp, s.token_expires_at = some exp ∧ exp ≤ now + 300) :
    validToken? s now = none := by
  unfold validToken?
  cases hA : s.access_token with
  | none => rfl
  | some tok =>
    cases hE : s.token_expires_at with
    | none => rfl
    | some exp =>
      have hcond : ¬ (jsonTruthy tok = true ∧ now < exp - 300) := by
        rcases h with h | ⟨exp2, hE2, hle⟩
        · unfold tokenHeld at h
          rw [hA] at h
          have hft : jsonTruthy tok = false := h
          intro hc
          rw [hc.1] at hft
          exact Bool.true_eq_false.mp hft
        · rw [hE] at hE2
          injection hE2 with hEq
          subst hEq
          intro hc
          omega
      show (if jsonTruthy tok = true ∧ now < exp - 300 then some tok else none) = none
      rw [if_neg hcond]

/-- Processing a login response that fails leaves the state untouched. -/
theorem processLoginResponse_error_state (s : ClientState) (now : Int)
    (net : NetResult) (e : ApiError)
    (h : (processLoginResponse s now net).1 = .error e) :
    (processLoginResponse s now net).2 = s := by
  unfold processLoginResponse at *
  cases net with
  | transportError => rfl
  | response r =>
    by_cases h2 : is2xx r.status = true
    · simp only [h2, if_true] at *
      cases hacc : r.body.find? "access" with
      | none => simp [hacc]
      | some tok => simp [hacc] at h
    · simp only [Bool.not_eq_true] at h2
      simp [h2]

/-- Every request `_get_token` issues is the login POST. -/
theorem get_token_requests (cfg : ClientConfig) (s : ClientState) (now : Int)
    (net : NetResult) :
    ∀ req ∈ (get_token cfg s now net).requests, req = loginRequest cfg := by
  unfold get_token
  cases validToken? s now <;> simp

/-- `_request` never changes the state beyond what `_get_token` did. -/
theorem request_state_eq (cfg : ClientConfig) (s : ClientState) (now : Int)
    (loginNet : NetResult) (method endpoint : String)
    (body params : Option Json) (domainNet : NetResult) :
    (request cfg s now loginNet method endpoint body params domainNet).state =
      (get_token cfg s now loginNet).state := by
  simp only [request]
  cases htr : (get_token cfg s now loginNet).result with
  | error e => rfl
  | ok tok =>
    cases domainNet with
    | transportError => rfl
    | response r =>
      by_cases h2 : is2xx r.status = true <;> simp [h2]

/-- When `_get_token` succeeded, `_request` issues exactly one domain call
after the token requests, whatever the domain outcome. -/
theorem request_requests_eq (cfg : ClientConfig) (s : ClientState) (now : Int)
    (loginNet : NetResult) (method endpoint : String)
    (body params : Option Json) (domainNet : NetResult) (tok : Json)
    (htok : (get_token cfg s now loginNet).result = .ok tok) :
    (request cfg s now loginNet method endpoint body params domainNet).requests =
      (get_token cfg s now loginNet).requests
        ++ [domainRequest cfg tok method endpoint body params] := by
  simp only [request]
  rw [htok]
  cases domainNet with
  | transportError => rfl
  | response r =>
    by_cases h2 : is2xx r.status = true <;> simp [h2]

/-- The last element of a list extended by one element. -/
theorem getLast?_append_one {α : Type} (xs : List α) (a : α) :
    (xs ++ [a]).getLast? = some a := by
  induction xs with
  | nil => rfl
  | cons x rest ih =>
    rw [List.cons_append, List.getLast?_cons]
    simp [ih]

/-! ## Claims -/

/-- Claim C1: in every state holding a (truthy) access credential whose
stored expiry is more than 5 minutes after the current instant,
`_get_token` returns exactly the held credential, issues no HTTP request,
and leaves the credential triple unchanged. -/
theorem token_reuse_no_network (cfg : ClientConfig) (s : ClientState)
    (now : Int) (net : NetResult) (tok : Json) (exp : Int)
    (hTok : s.access_token = some tok) (hHeld : jsonTruthy tok = true)
    (hExp : s.token_expires_at = some exp) (hNow : now < exp - 300) :
    get_token cfg s now net = ⟨.ok tok, s, []⟩ := by
  unfold get_token validToken?
  rw [hTok, hExp]
  simp [hHeld, hNow]

/-- Witness for C1: the held state with token `T` and expiry 1000, queried at
instant 0, returns `T` untouched with no requests. -/
theorem token_reuse_no_network_witness :
    get_token exCfg exHeldState 0 .transportError =
      ⟨.ok (.str "T"), exHeldState, []⟩ :=
  token_reuse_no_network exCfg exHeldState 0 .transportError (.str "T") 1000
    rfl rfl rfl (by decide)

/-- Claim C2: when no (truthy) credential is held, or the stored expiry is at
or before `now + 5 min` (boundary included), `_get_token` issues exactly one
login POST to `<base_url>/api/accounts/token/`; when that response is 2xx
and carries an `access` field, the new access value and optional refresh
value are stored, the expiry becomes `now + 1 hour`, and the new access
value is returned. -/
theorem refresh_boundary_single_login (cfg : ClientConfig) (s : ClientState)
    (now : Int) (net : NetResult)
    (h : tokenHeld s = false ∨
         ∃ exp, s.token_expires_at = some exp ∧ exp ≤ now + 300) :
    (get_token cfg s now net).requests = [loginRequest cfg]
    ∧ (loginRequest cfg).url = cfg.api_url ++ "/api/accounts/token/"
    ∧ ∀ r tok, net = .response r → is2xx r.status = true →
        r.body.find? "access" = some tok →
        get_token cfg s now net =
          ⟨.ok tok, ⟨some tok, r.body.find? "refresh", some (now + 3600)⟩,
           [loginRequest cfg]⟩ := by
  have hv := validToken?_eq_none s now h
  refine ⟨?_, rfl, ?_⟩
  · unfold get_token
    rw [hv]
  · intro r tok hnet h2 hacc
    subst hnet
    unfold get_token
    rw [hv]
    unfold processLoginResponse
    simp [h2, hacc]

/-- Witness for C2: from the freshly constructed state at instant 0, with a
2xx login response carrying access `T1`, exactly one login request is
issued, the state becomes `(T1, none, 3600)`, and `T1` is returned. -/
theorem refresh_boundary_single_login_witness :
    (get_token exCfg initClientState 0 exLogin1).requests = [loginRequest exCfg]
    ∧ (loginRequest exCfg).url = exCfg.api_url ++ "/api/accounts/token/"
    ∧ get_token exCfg initClientState 0 exLogin1 =
        ⟨.ok (.str "T1"), ⟨some (.str "T1"), none, some 3600⟩,
         [loginRequest exCfg]⟩ := by
  have h := refresh_boundary_single_login exCfg initClientState 0 exLogin1
    (Or.inl rfl)
  exact ⟨h.1, h.2.1, h.2.2 ⟨200, .obj [("access", .str "T1")]⟩ (.str "T1")
    rfl rfl rfl⟩

/-- Claim C4: every dispatch with verb `m` and endpoint suffix `ep` sends its
domain request to exactly `<base_url>/api/tracker/<ep>` with header
`Authorization: Bearer <credential>`, where the credential is the value
`_get_token` returned; every other request the dispatch issues is the
authentication call to `<base_url>/api/accounts/token/`. -/
theorem endpoint_composition (cfg : ClientConfig) (s : ClientState)
    (now : Int) (loginNet : NetResult) (method endpoint : String)
    (body params : Option Json) (domainNet : NetResult) (tok : Json)
    (htok : (get_token cfg s now loginNet).result = .ok tok) :
    ((request cfg s now loginNet method endpoint body params domainNet).requests.getLast? =
      some (domainRequest cfg tok method endpoint body params))
    ∧ (domainRequest cfg tok method endpoint body params).url =
        cfg.api_url ++ "/api/tracker/" ++ endpoint
    ∧ (domainRequest cfg tok method endpoint body params).method = method
    ∧ (domainRequest cfg tok method endpoint body params).authHeader =
        some ("Bearer " ++ pyStr tok)
    ∧ ∀ req ∈ (request cfg s now loginNet method endpoint body params domainNet).requests,
        req.url = cfg.api_url ++ "/api/tracker/" ++ endpoint
        ∨ req.url = cfg.api_url ++ "/api/accounts/token/" := by
  have hreq := request_requests_eq cfg s now loginNet method endpoint body
    params domainNet tok htok
  refine ⟨?_, rfl, rfl, rfl, ?_⟩
  · rw [hreq]
    exact getLast?_append_one _ _
  · intro req hmem
    rw [hreq] at hmem
    rcases List.mem_append.mp hmem with hm | hm
    · right
      rw [get_token_requests cfg s now loginNet req hm]
      rfl
    · left
      have hd : req = domainRequest cfg tok method endpoint body params := by
        simpa using hm
      rw [hd]
      rfl

/-- Witness for C4: `dispatch("GET", "projects/5/")` from the held-token
state targets exactly `<base_url>/api/tracker/projects/5/` with bearer
header `Bearer T`. -/
theorem endpoint_composition_witness :
    ((request exCfg exHeldState 0 .transportError "GET" "projects/5/" none
        none (.response ⟨200, .obj []⟩)).requests.getLast? =
      some (domainRequest exCfg (.str "T") "GET" "projects/5/" none none))
    ∧ (domainRequest exCfg (.str "T") "GET" "projects/5/" none none).url =
        exCfg.api_url ++ "/api/tracker/" ++ "projects/5/"
    ∧ (domainRequest exCfg (.str "T") "GET" "projects/5/" none none).authHeader =
        some ("Bearer " ++ pyStr (.str "T")) := by
  have h := endpoint_composition exCfg exHeldState 0 .transportError "GET"
    "projects/5/" none none (.response ⟨200, .obj []⟩) (.str "T") rfl
  exact ⟨h.1, h.2.1, h.2.2.2.1⟩

/-- Claim C5: a failing login (transport failure, non-2xx status, or body
missing the `access` field) leaves the credential triple exactly as it was
before the attempt. -/
theorem failed_login_preserves_state (cfg : ClientConfig) (s : ClientState)
    (now : Int) (net : NetResult) (e : ApiError)
    (h : (get_token cfg s now net).result = .error e) :
    (get_token cfg s now net).state = s := by
  unfold get_token at h ⊢
  cases hv : validToken? s now with
  | some tok => rfl
  | none =>
    rw [hv] at h
    exact processLoginResponse_error_state s now net e h

/-- Witness for C5: a 401 login from the fresh state leaves the state
empty. -/
theorem failed_login_preserves_state_witness :
    (get_token exCfg initClientState 0 exReject).state = initClientState :=
  failed_login_preserves_state exCfg initClientState 0 exReject
    (.httpStatusError 401 (.obj [])) rfl

/-- Claim C6: with a valid credential in hand, a non-2xx domain response
makes the dispatch fail with the HTTP status error carrying that status and
body, a transport failure surfaces as the transport error, a 2xx response
yields its parsed body, and in every case exactly one domain request is
issued (no retry). -/
theorem error_classification_domain (cfg : ClientConfig) (s : ClientState)
    (now : Int) (loginNet : NetResult) (method endpoint : String)
    (body params : Option Json) (tok : Json)
    (htok : (get_token cfg s now loginNet).result = .ok tok) :
    (∀ r : HttpResponse, is2xx r.status = false →
      (request cfg s now loginNet method endpoint body params (.response r)).result =
        .error (.httpStatusError r.status r.body))
    ∧ (request cfg s now loginNet method endpoint body params .transportError).result =
        .error .transportError
    ∧ (∀ r : HttpResponse, is2xx r.status = true →
      (request cfg s now loginNet method endpoint body params (.response r)).result =
        .ok r.body)
    ∧ ∀ dNet, (request cfg s now loginNet method endpoint body params dNet).requests =
        (get_token cfg s now loginNet).requests
          ++ [domainRequest cfg tok method endpoint body params] := by
  refine ⟨?_, ?_, ?_, ?_⟩
  · intro r h2
    simp only [request]
    rw [htok]
    simp [h2]
  · simp only [request]
    rw [htok]
  · intro r h2
    simp only [request]
    rw [htok]
    simp [h2]
  · intro dNet
    exact request_requests_eq cfg s now loginNet method endpoint body params
      dNet tok htok

/-- Witness for C6: a 404 domain response yields the status error with
status 404 and the body, a domain transport failure yields the transport
error, a 200 response yields its body, and the 404 dispatch issued exactly
the one domain request. -/
theorem error_classification_domain_witness :
    ((request exCfg exHeldState 0 .transportError "GET" "projects/5/" none
        none (.response ⟨404, .obj [("detail", .str "missing")]⟩)).result =
      .error (.httpStatusError 404 (.obj [("detail", .str "missing")])))
    ∧ (request exCfg exHeldState 0 .transportError "GET" "projects/5/" none
        none .transportError).result = .error .transportError
    ∧ (request exCfg exHeldState 0 .transportError "GET" "projects/5/" none
        none (.response ⟨200, .obj [("projects", .arr [])]⟩)).result =
      .ok (.obj [("projects", .arr [])])
    ∧ (request exCfg exHeldState 0 .transportError "GET" "projects/5/" none
        none (.response ⟨404, .obj [("detail", .str "missing")]⟩)).requests =
      (get_token exCfg exHeldState 0 .transportError).requests
        ++ [domainRequest exCfg (.str "T") "GET" "projects/5/" none none] := by
  have h := error_classification_domain exCfg exHeldState 0 .transportError
    "GET" "projects/5/" none none (.str "T") rfl
  exact ⟨h.1 ⟨404, .obj [("detail", .str "missing")]⟩ rfl, h.2.1,
    h.2.2.1 ⟨200, .obj [("projects", .arr [])]⟩ rfl,
    h.2.2.2 (.response ⟨404, .obj [("detail", .str "missing")]⟩)⟩

/-- Claim C7: when no valid credential is held, a login rejected with a
non-2xx status or answered 2xx without an `access` field makes the dispatch
fail with the corresponding login error (the spec's authentication
failure), propagated unchanged to the dispatch caller: the state is left
untouched, only the single login request was issued, and no domain request
or retry happens. -/
theorem auth_failure_propagation (cfg : ClientConfig) (s : ClientState)
    (now : Int) (method endpoint : String) (body params : Option Json)
    (dNet : NetResult) (hInv : validToken? s now = none) :
    (∀ r : HttpResponse, is2xx r.status = false →
      request cfg s now (.response r) method endpoint body params dNet =
        ⟨.error (.httpStatusError r.status r.body), s, [loginRequest cfg]⟩)
    ∧ ∀ r : HttpResponse, is2xx r.status = true →
        r.body.find? "access" = none →
        request cfg s now (.response r) method endpoint body params dNet =
          ⟨.error (.keyError "access"), s, [loginRequest cfg]⟩ := by
  constructor
  · intro r h2
    simp only [request, get_token, hInv]
    unfold processLoginResponse
    simp [h2]
  · intro r h2 hacc
    simp only [request, get_token, hInv]
    unfold processLoginResponse
    simp [h2, hacc]

/-- Witness for C7: from the fresh state, a 401 login and a 200 login
missing the `access` field each abort the dispatch with the corresponding
error, one login request issued, state untouched, no domain call. -/
theorem auth_failure_propagation_witness :
    request exCfg initClientState 0 exReject "GET" "projects/" none none
        (.response ⟨200, .obj []⟩) =
      ⟨.error (.httpStatusError 401 (.obj [])), initClientState,
       [loginRequest exCfg]⟩
    ∧ request exCfg initClientState 0 exNoAccess "GET" "projects/" none none
        (.response ⟨200, .obj []⟩) =
      ⟨.error (.keyError "access"), initClientState, [loginRequest exCfg]⟩ := by
  have h := auth_failure_propagation exCfg initClientState 0 "GET" "projects/"
    none none (.response ⟨200, .obj []⟩) rfl
  exact ⟨h.1 ⟨401, .obj []⟩ rfl, h.2 ⟨200, .obj [("detail", .str "x")]⟩ rfl rfl⟩

/-- Sequential response processing produces one outcome per task. -/
theorem processAll_length (now : Int) (nets : List NetResult) :
    ∀ s : ClientState, (processAll now s nets).1.length = nets.length := by
  induction nets with
  | nil => intro s; rfl
  | cons net rest ih =>
    intro s
    unfold processAll
    simp [ih]

/-- A task whose login response is 2xx with an `access` field receives that
access value, whatever the shared state looked like when its response was
processed. -/
theorem processAll_get (now : Int) (nets : List NetResult) :
    ∀ (s : ClientState) (i : Nat) (r : HttpResponse) (tok : Json),
      nets.get? i = some (.response r) → is2xx r.status = true →
      r.body.find? "access" = some tok →
      (processAll now s nets).1.get? i = some (.ok tok) := by
  induction nets with
  | nil =>
    intro s i r tok hget
    exact absurd hget (by simp)
  | cons net rest ih =>
    intro s i r tok hget h2 hacc
    cases i with
    | zero =>
      simp only [List.get?_cons_zero, Option.some.injEq] at hget
      subst hget
      unfold processAll processLoginResponse
      simp [h2, hacc]
    | succ j =>
      simp only [List.get?_cons_succ] at hget
      unfold processAll
      simp only [List.get?_cons_succ]
      exact ih _ j r tok hget h2 hacc

/-- Claim C3 counterexample: two concurrent acquisitions from the fresh
state, under the interleaving in which both validity checks run before
either login response is processed, issue 2 login calls — not exactly 1 —
and the two callers receive different credential values (`T1` and `T2`). -/
theorem single_flight_cex :
    (interleavedAcquire exCfg initClientState 0 [exLogin1, exLogin2]).2.2.length = 2
    ∧ ¬ (interleavedAcquire exCfg initClientState 0 [exLogin1, exLogin2]).2.2.length = 1
    ∧ (interleavedAcquire exCfg initClientState 0 [exLogin1, exLogin2]).1 =
        [.ok (.str "T1"), .ok (.str "T2")]
    ∧ ¬ ((Except.ok (Json.str "T1") : Except ApiError Json) = .ok (.str "T2")) := by
  refine ⟨rfl, ?_, rfl, by simp⟩
  intro hcontra
  have h2 : (interleavedAcquire exCfg initClientState 0
      [exLogin1, exLogin2]).2.2.length = 2 := rfl
  rw [hcontra] at h2
  exact absurd h2 (by decide)

/-- Claim C3 (amended): N concurrent acquisitions issued while no valid
credential is held, under the interleaving where every validity check runs
before any login response is processed, result in N login calls — one per
caller, not one in total — and each caller whose login response is 2xx with
an `access` field receives the access value of its own response (so the
callers need not receive the same value). -/
theorem concurrent_logins_per_caller (cfg : ClientConfig) (s0 : ClientState)
    (now : Int) (nets : List NetResult)
    (h : validToken? s0 now = none) :
    (interleavedAcquire cfg s0 now nets).2.2.length = nets.length
    ∧ (interleavedAcquire cfg s0 now nets).1.length = nets.length
    ∧ ∀ (i : Nat) (r : HttpResponse) (tok : Json),
        nets.get? i = some (.response r) → is2xx r.status = true →
        r.body.find? "access" = some tok →
        (interleavedAcquire cfg s0 now nets).1.get? i = some (.ok tok) := by
  unfold interleavedAcquire
  rw [h]
  refine ⟨?_, ?_, ?_⟩
  · show (nets.map fun _ => loginRequest cfg).length = nets.length
    simp
  · show (processAll now s0 nets).1.length = nets.length
    exact processAll_length now nets s0
  · intro i r tok hget h2 hacc
    show (processAll now s0 nets).1.get? i = some (.ok tok)
    exact processAll_get now nets s0 i r tok hget h2 hacc

/-- Witness for C3 (amended): the concrete two-task run issues 2 logins and
hands each caller its own token. -/
theorem concurrent_logins_per_caller_witness :
    (interleavedAcquire exCfg initClientState 0 [exLogin1, exLogin2]).2.2.length = 2
    ∧ (interleavedAcquire exCfg initClientState 0 [exLogin1, exLogin2]).1.get? 0 =
        some (.ok (.str "T1"))
    ∧ (interleavedAcquire exCfg initClientState 0 [exLogin1, exLogin2]).1.get? 1 =
        some (.ok (.str "T2")) := by
  have h := concurrent_logins_per_caller exCfg initClientState 0
    [exLogin1, exLogin2] rfl
  exact ⟨h.1,
    h.2.2 0 ⟨200, .obj [("access", .str "T1")]⟩ (.str "T1") rfl rfl rfl,
    h.2.2 1 ⟨200, .obj [("access", .str "T2")]⟩ (.str "T2") rfl rfl rfl⟩

/-- One `_get_token` step preserves the minted-expiry invariant. -/
theorem mint_step (cfg : ClientConfig) (s0 : ClientState) (m0 : Option Int)
    (now : Int) (net : NetResult)
    (ih : ∀ tok, s0.access_token = some tok →
      ∃ mint, m0 = some mint ∧ s0.token_expires_at = some (mint + 3600)) :
    ∀ tok, (get_token cfg s0 now net).state.access_token = some tok →
      ∃ mint, mintAfter cfg s0 now net m0 = some mint ∧
        (get_token cfg s0 now net).state.token_expires_at = some (mint + 3600) := by
  intro tok htok
  unfold get_token at htok
  unfold mintAfter get_token
  cases hv : validToken? s0 now with
  | some t =>
    rw [hv] at htok
    exact ih tok htok
  | none =>
    rw [hv] at htok
    cases net with
    | transportError => exact ih tok htok
    | response r =>
      by_cases h2 : is2xx r.status = true
      · cases hacc : r.body.find? "access" with
        | none =>
          simp [processLoginResponse, h2, hacc] at htok ⊢
          exact ih tok htok
        | some t2 =>
          simp [processLoginResponse, h2, hacc] at htok ⊢
      · rw [Bool.not_eq_true] at h2
        simp [processLoginResponse, h2] at htok ⊢
        exact ih tok htok

/-- Claim C8: in every state reachable by any sequence of `_get_token` and
`_request` calls from the freshly constructed client, whenever an access
credential is held the expiry instant is set and equals the minting instant
of that credential (the ghost component of `Reachable`) plus one hour. -/
theorem minted_expiry_invariant (cfg : ClientConfig) (s : ClientState)
    (m : Option Int) (h : Reachable cfg s m) :
    ∀ tok, s.access_token = some tok →
      ∃ mint, m = some mint ∧ s.token_expires_at = some (mint + 3600) := by
  induction h with
  | init =>
    intro tok htok
    exact absurd htok (by simp [initClientState])
  | stepToken s0 m0 now net hr ih => exact mint_step cfg s0 m0 now net ih
  | stepRequest s0 m0 now loginNet method endpoint body params domainNet hr ih =>
    intro tok htok
    rw [request_state_eq cfg s0 now loginNet method endpoint body params
      domainNet] at htok
    rw [request_state_eq cfg s0 now loginNet method endpoint body params
      domainNet]
    exact mint_step cfg s0 m0 now loginNet ih tok htok

/-- Witness for C8: the state after one successful login from the fresh
state at instant 0 holds `T1` and its expiry is that minting instant plus
one hour. -/
theorem minted_expiry_invariant_witness :
    ∃ mint, mintAfter exCfg initClientState 0 exLogin1 none = some mint ∧
      (get_token exCfg initClientState 0 exLogin1).state.token_expires_at =
        some (mint + 3600) :=
  minted_expiry_invariant exCfg _ _
    (.stepToken initClientState none 0 exLogin1 .init) (.str "T1") rfl

/-- Claim C9: constructing the client with the TLS-verification argument
explicitly `false` while the `VERIFY_SSL` environment variable is unset
stores `true` (the explicit `false` is discarded in favour of the
environment default), and an explicit `false` survives only when
`VERIFY_SSL` is set to some value other than `"true"`. -/
theorem verify_ssl_env_override :
    init_verify_ssl false none = true
    ∧ ∀ v : String, init_verify_ssl false (some v) = false → v ≠ "true" := by
  constructor
  · rfl
  · intro v hfalse hcontra
    subst hcontra
    exact absurd hfalse (by decide)

/-- Witness for C9: with `VERIFY_SSL=false` the stored flag is `false` and
indeed `"false" ≠ "true"`; with the variable unset the explicit `false`
argument still yields `true`. -/
theorem verify_ssl_env_override_witness :
    (("false" : String) ≠ "true") ∧ init_verify_ssl false none = true := by
  have h := verify_ssl_env_override
  exact ⟨h.2 "false" (by decide), h.1⟩

/-- With a valid token and a 2xx domain response, `_request` returns the
parsed body. -/
theorem request_ok_result (cfg : ClientConfig) (s : ClientState) (now : Int)
    (loginNet : NetResult) (method endpoint : String)
    (body params : Option Json) (tok : Json) (status : Nat) (bodyJ : Json)
    (htok : (get_token cfg s now loginNet).result = .ok tok)
    (h2 : is2xx status = true) :
    (request cfg s now loginNet method endpoint body params
      (.response ⟨status, bodyJ⟩)).result = .ok bodyJ := by
  simp only [request]
  rw [htok]
  simp [h2]

/-- `dict.get` over a 2xx object body lacking the key yields the default. -/
theorem extractField_request_obj (cfg : ClientConfig) (s : ClientState)
    (now : Int) (loginNet : NetResult) (method endpoint : String)
    (body params : Option Json) (tok : Json) (status : Nat)
    (fields : List (String × Json)) (key : String) (dflt : Json)
    (htok : (get_token cfg s now loginNet).result = .ok tok)
    (h2 : is2xx status = true)
    (hkey : lookupField fields key = none) :
    extractField (request cfg s now loginNet method endpoint body params
      (.response ⟨status, .obj fields⟩)) key dflt = .ok dflt := by
  unfold extractField
  rw [request_ok_result cfg s now loginNet method endpoint body params tok
    status (.obj fields) htok h2]
  simp [Json.find?, hkey]

/-- Claim C10: on a successful dispatch whose 2xx response body is a JSON
object lacking the sub-field the domain method expects, the list-returning
methods return the empty list and the object-returning methods return the
empty object, with no error raised. -/
theorem missing_field_defaults (cfg : ClientConfig) (s : ClientState)
    (now : Int) (loginNet : NetResult) (tok : Json) (status : Nat)
    (htok : (get_token cfg s now loginNet).result = .ok tok)
    (h2 : is2xx status = true) :
    (∀ fields, lookupField fields "projects" = none →
      (list_projects cfg s now loginNet (.response ⟨status, .obj fields⟩)).1 =
        .ok (.arr []))
    ∧ (∀ pid fields, lookupField fields "project" = none →
      (get_project cfg s now loginNet pid (.response ⟨status, .obj fields⟩)).1 =
        .ok (.obj []))
    ∧ (∀ pid fields, lookupField fields "sprints" = none →
      (list_sprints cfg s now loginNet pid (.response ⟨status, .obj fields⟩)).1 =
        .ok (.arr []))
    ∧ (∀ sid fields, lookupField fields "sprint" = none →
      (get_sprint cfg s now loginNet sid (.response ⟨status, .obj fields⟩)).1 =
        .ok (.obj []))
    ∧ (∀ pid name goal sd ed vt fields, lookupField fields "sprint" = none →
      (create_sprint cfg s now loginNet pid name goal sd ed vt
        (.response ⟨status, .obj fields⟩)).1 = .ok (.obj []))
    ∧ (∀ pid fields, lookupField fields "work_items" = none →
      (list_work_items cfg s now loginNet pid
        (.response ⟨status, .obj fields⟩)).1 = .ok (.arr []))
    ∧ (∀ wid fields, lookupField fields "work_item" = none →
      (get_work_item cfg s now loginNet wid
        (.response ⟨status, .obj fields⟩)).1 = .ok (.obj []))
    ∧ (∀ pid fields, lookupField fields "work_items" = none →
      (get_backlog cfg s now loginNet pid
        (.response ⟨status, .obj fields⟩)).1 = .ok (.arr [])) := by
  refine ⟨?_, ?_, ?_, ?_, ?_, ?_, ?_, ?_⟩
  · intro fields hkey
    exact extractField_request_obj cfg s now loginNet "GET" "projects/" none
      none tok status fields "projects" (.arr []) htok h2 hkey
  · intro pid fields hkey
    exact extractField_request_obj cfg s now loginNet "GET"
      ("projects/" ++ toString pid ++ "/") none none tok status fields
      "project" (.obj []) htok h2 hkey
  · intro pid fields hkey
    exact extractField_request_obj cfg s now loginNet "GET"
      ("projects/" ++ toString pid ++ "/sprints/") none none tok status fields
      "sprints" (.arr []) htok h2 hkey
  · intro sid fields hkey
    exact extractField_request_obj cfg s now loginNet "GET"
      ("sprints/" ++ toString sid ++ "/") none none tok status fields
      "sprint" (.obj []) htok h2 hkey
  · intro pid name goal sd ed vt fields hkey
    exact extractField_request_obj cfg s now loginNet "POST"
      ("projects/" ++ toString pid ++ "/sprints/")
      (some (create_sprint_payload name goal sd ed vt)) none tok status fields
      "sprint" (.obj []) htok h2 hkey
  · intro pid fields hkey
    exact extractField_request_obj cfg s now loginNet "GET"
      ("projects/" ++ toString pid ++ "/work-items/") none none tok status
      fields "work_items" (.arr []) htok h2 hkey
  · intro wid fields hkey
    exact extractField_request_obj cfg s now loginNet "GET"
      ("work-items/" ++ toString wid ++ "/") none none tok status fields
      "work_item" (.obj []) htok h2 hkey
  · intro pid fields hkey
    exact extractField_request_obj cfg s now loginNet "GET"
      ("projects/" ++ toString pid ++ "/backlog/") none none tok status fields
      "work_items" (.arr []) htok h2 hkey

/-- Witness for C10: concrete 200 responses with an empty object body give
the empty list for `list_projects`/`get_backlog` and the empty object for
`get_project` and `create_sprint`. -/
theorem missing_field_defaults_witness :
    (list_projects exCfg exHeldState 0 .transportError
      (.response ⟨200, .obj []⟩)).1 = .ok (.arr [])
    ∧ (get_project exCfg exHeldState 0 .transportError 5
      (.response ⟨200, .obj []⟩)).1 = .ok (.obj [])
    ∧ (create_sprint exCfg exHeldState 0 .transportError 5 "S1" none none
      none none (.response ⟨200, .obj []⟩)).1 = .ok (.obj [])
    ∧ (get_backlog exCfg exHeldState 0 .transportError 5
      (.response ⟨200, .obj []⟩)).1 = .ok (.arr []) := by
  have h := missing_field_defaults exCfg exHeldState 0 .transportError
    (.str "T") 200 rfl rfl
  exact ⟨h.1 [] rfl, h.2.1 5 [] rfl, h.2.2.2.2.1 5 "S1" none none none none [] rfl,
    h.2.2.2.2.2.2.2 5 [] rfl⟩

end ApiPort
